import Mathlib

/-!
# Vuls server subcommand: startup control flow of `ServerCmd.Execute`

A shallow embedding of `src/commands/server.go`.  `Execute` talks to a number of
collaborators that live in other packages (`config`, `report`, `oval`,
`server`, `util`, `net/http`).  They are taken as parameters (`Env`), and every
call that `Execute` makes to one of them is recorded, in program order, in a
trace of `Event`s.  The embedding covers the runs in which every collaborator
call returns to its caller, and in which the collaborators do not themselves
change the process-wide configuration after the three `Overwrite` calls.
-/

namespace Vuls

/-! ## Data model -/

/-- The exit statuses of `github.com/google/subcommands`. -/
inductive ExitStatus
  | ExitSuccess
  | ExitFailure
  | ExitUsageError
  deriving DecidableEq, Repr

/-- Numeric value of an exit status (`ExitSuccess ExitStatus = iota`, then
`ExitFailure`, then `ExitUsageError`). -/
def ExitStatus.code : ExitStatus → Nat
  | .ExitSuccess => 0
  | .ExitFailure => 1
  | .ExitUsageError => 2

/-- The fields of `config.GoCveDictConf` that `Execute` reads.  The Go field
`Type` is spelled `dbType` here. -/
structure GoCveDictConf where
  dbType : String
  SQLite3Path : String
  URL : String
  deriving DecidableEq, Repr

/-- The fields of `config.GovalDictConf` that `Execute` reads. -/
structure GovalDictConf where
  dbType : String
  SQLite3Path : String
  URL : String
  deriving DecidableEq, Repr

/-- The fields of `config.GostConf` that `Execute` reads. -/
structure GostConf where
  dbType : String
  SQLite3Path : String
  URL : String
  deriving DecidableEq, Repr

/-- The part of the process-wide `config.Conf` that `Execute` touches. -/
structure Config where
  LogDir : String
  Debug : Bool
  DebugSQL : Bool
  CveDict : GoCveDictConf
  OvalDict : GovalDictConf
  Gost : GostConf
  deriving DecidableEq, Repr

/-- The receiver of `Execute`. -/
structure ServerCmd where
  configPath : String
  listen : String
  cvelDict : GoCveDictConf
  ovalDict : GovalDictConf
  gostConf : GostConf
  deriving DecidableEq, Repr

/-- The argument of `report.NewDBClient`. -/
structure DBClientConf where
  CveDictCnf : GoCveDictConf
  OvalDictCnf : GovalDictConf
  GostCnf : GostConf
  DebugSQL : Bool
  deriving DecidableEq, Repr

/-- The aggregate client handle returned by `report.NewDBClient`; only its
identity matters to `Execute`. -/
structure DBClient where
  id : Nat
  deriving DecidableEq, Repr

/-- The three dictionary backends. -/
inductive Backend
  | cve
  | oval
  | gost
  deriving DecidableEq, Repr

/-- The two handlers that `Execute` registers: `server.VulsHandler` holding a
copy of the client, and the function literal of the liveness route. -/
inductive Handler
  | VulsHandler (DBclient : DBClient)
  | healthFunc
  deriving DecidableEq, Repr

/-- One observable step of `Execute`: a call to a collaborator.
`HealthCheck .cve` is `report.CveClient.CheckHealth()`,
`HealthCheck .oval` is `oval.Base{}.CheckHTTPHealth()`; log calls keep their
format string and their already rendered operands apart. -/
inductive Event
  | NewCustomLogger
  | SetLogger (logDir : String) (debug : Bool)
  | Overwrite (b : Backend)
  | Info (msg : String)
  | Infof (format : String) (args : List String)
  | Errorf (format : String) (args : List String)
  | ValidateOnReport
  | HealthCheck (b : Backend)
  | NewDBClient (cnf : DBClientConf)
  | Handle (pattern : String) (h : Handler)
  | HandleFunc (pattern : String) (h : Handler)
  | ListenAndServe (addr : String)
  | CloseDB (d : DBClient)
  deriving DecidableEq, Repr

/-- The collaborators of `Execute`.  `Overwrite*` map the configured value and
the command-line value of a backend to its new configured value;
`ValidateOnReport`, `CheckHealth` (of `report.CveClient`) and `CheckHTTPHealth`
(of `oval.Base`) read the process-wide configuration and so depend on it;
`NewDBClient` returns the client, the `locked` flag and the error;
`ListenAndServe` returns its error for a listen address.  An `error` result is
its text, `none` being Go's `nil`. -/
structure Env where
  OverwriteCve : GoCveDictConf → GoCveDictConf → GoCveDictConf
  OverwriteOval : GovalDictConf → GovalDictConf → GovalDictConf
  OverwriteGost : GostConf → GostConf → GostConf
  ValidateOnReport : Config → Bool
  CheckHealth : Config → Option String
  CheckHTTPHealth : Config → Option String
  NewDBClient : DBClientConf → DBClient × Bool × Option String
  ListenAndServe : String → Option String

/-! ## Formatting -/

/-- What the `%s` verb of Go's `fmt` prints for an `error` operand. -/
def errText : Option String → String
  | some e => e
  | none => "%!s(<nil>)"

/-- Expansion of the `%s` verbs of a format, the only verb `Execute` uses. -/
def sprintfAux : List Char → List String → List Char
  | '%' :: 's' :: rest, a :: as => a.data ++ sprintfAux rest as
  | '%' :: 's' :: rest, [] => "%!s(MISSING)".data ++ sprintfAux rest []
  | c :: rest, as => c :: sprintfAux rest as
  | [], _ => []

/-- The text `fmt.Sprintf` yields for a format and rendered operands. -/
def Sprintf (format : String) (args : List String) : String :=
  ⟨sprintfAux format.data args⟩

/-! ## Execute -/

/-- Prepend the events that happened before a sub-step. -/
def after (t : List Event) (r : ExitStatus × List Event) : ExitStatus × List Event :=
  (r.1, t ++ r.2)

/-- Lines 169-175: report where the CVE dictionary comes from. -/
def cveDictInfo (c : Config) : List Event :=
  if c.CveDict.URL ≠ "" then
    [.Infof "cve-dictionary: %s" [c.CveDict.URL]]
  else if c.CveDict.dbType = "sqlite3" then
    [.Infof "cve-dictionary: %s" [c.CveDict.SQLite3Path]]
  else
    []

/-- Lines 191-196: the `report.DBClientConf` literal handed to `NewDBClient`. -/
def dbConf (c : Config) : DBClientConf :=
  { CveDictCnf := c.CveDict, OvalDictCnf := c.OvalDict, GostCnf := c.Gost,
    DebugSQL := c.DebugSQL }

/-- Lines 191-218: build the client, register the routes, serve, and run the
deferred `CloseDB` on the way out. -/
def serve (env : Env) (c : Config) (p : ServerCmd) : ExitStatus × List Event :=
  let cnf : DBClientConf := dbConf c
  match env.NewDBClient cnf with
  | (dbclient, locked, err) =>
    if locked then
      (.ExitFailure,
        [.NewDBClient cnf,
         .Errorf "SQLite3 is locked. Close other DB connections and try again: %s" [errText err]])
    else
      match err with
      | some e =>
        (.ExitFailure, [.NewDBClient cnf, .Errorf "Failed to init DB Clients: %s" [e]])
      | none =>
        let t : List Event :=
          [.NewDBClient cnf,
           .Handle "/vuls" (.VulsHandler dbclient),
           .HandleFunc "/health" .healthFunc,
           .Infof "Listening on %s" [p.listen],
           .ListenAndServe p.listen]
        match env.ListenAndServe p.listen with
        | some e =>
          (.ExitFailure, t ++ [.Errorf "Failed to start server: %s" [e], .CloseDB dbclient])
        | none =>
          (.ExitSuccess, t ++ [.CloseDB dbclient])

/-- Lines 177-189 followed by `serve`: the OVAL dictionary report and probe. -/
def ovalThenServe (env : Env) (c : Config) (p : ServerCmd) : ExitStatus × List Event :=
  if c.OvalDict.URL ≠ "" then
    match env.CheckHTTPHealth c with
    | some err =>
      (.ExitFailure,
        [.Infof "oval-dictionary: %s" [c.OvalDict.URL],
         .HealthCheck .oval,
         .Errorf "OVAL HTTP server is not running. err: %s" [err],
         .Errorf "Run goval-dictionary as server mode before Servering or run with -ovaldb-path option" []])
    | none =>
      after [.Infof "oval-dictionary: %s" [c.OvalDict.URL], .HealthCheck .oval] (serve env c p)
  else if c.OvalDict.dbType = "sqlite3" then
    after [.Infof "oval-dictionary: %s" [c.OvalDict.SQLite3Path]] (serve env c p)
  else
    serve env c p

/-- The configuration after lines 155-157. -/
def overwritten (env : Env) (Conf : Config) (p : ServerCmd) : Config :=
  { Conf with
    CveDict := env.OverwriteCve Conf.CveDict p.cvelDict
    OvalDict := env.OverwriteOval Conf.OvalDict p.ovalDict
    Gost := env.OverwriteGost Conf.Gost p.gostConf }

/-- Lines 152-160: logger set-up, the three `Overwrite` calls and the call of
`ValidateOnReport`. -/
def preamble (Conf : Config) : List Event :=
  [.NewCustomLogger, .SetLogger Conf.LogDir Conf.Debug,
   .Overwrite .cve, .Overwrite .oval, .Overwrite .gost,
   .Info "Validating config...", .ValidateOnReport]

/-- `ServerCmd.Execute` (lines 151-219): the exit status and the trace of
collaborator calls, given the process-wide configuration at entry. -/
def Execute (env : Env) (Conf : Config) (p : ServerCmd) : ExitStatus × List Event :=
  let c := overwritten env Conf p
  let t0 : List Event := preamble Conf
  if !env.ValidateOnReport c then
    (.ExitUsageError, t0)
  else
    match env.CheckHealth c with
    | some err =>
      (.ExitFailure,
        t0 ++ [.HealthCheck .cve,
          .Errorf "CVE HTTP server is not running. err: %s" [err],
          .Errorf "Run go-cve-dictionary as server mode before Servering or run with -cvedb-path option" []])
    | none =>
      after (t0 ++ [.HealthCheck .cve] ++ cveDictInfo c) (ovalThenServe env c p)

/-! ## The liveness handler -/

/-- An incoming HTTP request, as far as a handler can see it. -/
structure Request where
  method : String
  path : String
  body : String
  deriving DecidableEq, Repr

/-- The state of an `http.ResponseWriter`: the status line once it has been
sent, and the body written so far. -/
structure ResponseWriter where
  status : Option Nat
  body : String
  deriving DecidableEq, Repr

/-- A response writer nothing has been written to. -/
def ResponseWriter.fresh : ResponseWriter :=
  { status := none, body := "" }

/-- Writing to a response writer: `net/http` sends `200 OK` first if no status
has been sent yet. -/
def ResponseWriter.Write (w : ResponseWriter) (s : String) : ResponseWriter :=
  { status := some (w.status.getD 200), body := w.body ++ s }

/-- Lines 210-212: the function literal registered under `/health`.  It
returns the writer after `fmt.Fprintf(w, "ok")` and the collaborator calls it
made (none). -/
def healthFunc (w : ResponseWriter) (_r : Request) : ResponseWriter × List Event :=
  (w.Write (Sprintf "ok" []), [])

/-- What a registered handler does with a request; the body of
`server.VulsHandler.ServeHTTP` is a parameter. -/
def Handler.ServeHTTP
    (vuls : DBClient → ResponseWriter → Request → ResponseWriter × List Event) :
    Handler → ResponseWriter → Request → ResponseWriter × List Event
  | .VulsHandler d, w, r => vuls d w r
  | .healthFunc, w, r => Vuls.healthFunc w r

/-! ## Observations on traces -/

/-- The OVAL events of lines 177-189 on the path where the probe, if made,
succeeds. -/
def ovalDictInfo (c : Config) : List Event :=
  if c.OvalDict.URL ≠ "" then
    [.Infof "oval-dictionary: %s" [c.OvalDict.URL], .HealthCheck .oval]
  else if c.OvalDict.dbType = "sqlite3" then
    [.Infof "oval-dictionary: %s" [c.OvalDict.SQLite3Path]]
  else
    []

/-- A route registration (`http.Handle` or `http.HandleFunc`). -/
def Event.isRoute : Event → Bool
  | .Handle _ _ => true
  | .HandleFunc _ _ => true
  | _ => false

/-- A call of `http.ListenAndServe`. -/
def Event.isListen : Event → Bool
  | .ListenAndServe _ => true
  | _ => false

/-- A call of `CloseDB`. -/
def Event.isCloseDB : Event → Bool
  | .CloseDB _ => true
  | _ => false

/-- A backend check: a health probe or the construction of the clients. -/
def Event.isBackendCheck : Event → Bool
  | .HealthCheck _ => true
  | .NewDBClient _ => true
  | _ => false

/-- The text of an error-level log call. -/
def Event.errorMessage : Event → Option String
  | .Errorf f a => some (Sprintf f a)
  | _ => none

/-- The error-level messages of a trace, in order. -/
def errorMessages (t : List Event) : List String :=
  t.filterMap Event.errorMessage

/-- The format string of an error-level log call. -/
def Event.errorFormat : Event → Option String
  | .Errorf f _ => some f
  | _ => none

/-- The format strings of the error-level log calls of a trace, in order. -/
def errorFormats (t : List Event) : List String :=
  t.filterMap Event.errorFormat

/-- The operands of an info-level log call made with a given format. -/
def Event.infoArgs (format : String) : Event → Option (List String)
  | .Infof f a => if f = format then some a else none
  | _ => none

/-- The operands of the info-level log calls of a trace that use a given
format, in order. -/
def infoArgs (format : String) (t : List Event) : List (List String) :=
  t.filterMap (Event.infoArgs format)

/-- A message contains a text. -/
def Mentions (msg s : String) : Prop :=
  s.data <:+: msg.data

instance instDecidableMentions (msg s : String) : Decidable (Mentions msg s) := by
  unfold Mentions
  infer_instance

/-- Every startup step of `Execute` succeeds under configuration `c`. -/
def StartupOK (env : Env) (c : Config) : Prop :=
  env.ValidateOnReport c = true ∧ env.CheckHealth c = none ∧
  (c.OvalDict.URL ≠ "" → env.CheckHTTPHealth c = none) ∧
  (env.NewDBClient (dbConf c)).2.1 = false ∧ (env.NewDBClient (dbConf c)).2.2 = none

/-- The ways a run of `Execute` can go, with the result of each. -/
inductive Run (env : Env) (Conf c : Config) (p : ServerCmd) : ExitStatus × List Event → Prop
  | invalid (hv : env.ValidateOnReport c = false) :
      Run env Conf c p (.ExitUsageError, preamble Conf)
  | cveDown (hv : env.ValidateOnReport c = true) (e : String)
      (hc : env.CheckHealth c = some e) :
      Run env Conf c p (.ExitFailure,
        preamble Conf ++ [.HealthCheck .cve,
          .Errorf "CVE HTTP server is not running. err: %s" [e],
          .Errorf "Run go-cve-dictionary as server mode before Servering or run with -cvedb-path option" []])
  | ovalDown (hv : env.ValidateOnReport c = true) (hc : env.CheckHealth c = none)
      (hu : c.OvalDict.URL ≠ "") (e : String) (ho : env.CheckHTTPHealth c = some e) :
      Run env Conf c p (.ExitFailure,
        preamble Conf ++ [.HealthCheck .cve] ++ cveDictInfo c ++
          [.Infof "oval-dictionary: %s" [c.OvalDict.URL], .HealthCheck .oval,
           .Errorf "OVAL HTTP server is not running. err: %s" [e],
           .Errorf "Run goval-dictionary as server mode before Servering or run with -ovaldb-path option" []])
  | locked (hv : env.ValidateOnReport c = true) (hc : env.CheckHealth c = none)
      (ho : c.OvalDict.URL ≠ "" → env.CheckHTTPHealth c = none)
      (d : DBClient) (err : Option String) (hn : env.NewDBClient (dbConf c) = (d, true, err)) :
      Run env Conf c p (.ExitFailure,
        preamble Conf ++ [.HealthCheck .cve] ++ cveDictInfo c ++ ovalDictInfo c ++
          [.NewDBClient (dbConf c),
           .Errorf "SQLite3 is locked. Close other DB connections and try again: %s" [errText err]])
  | openErr (hv : env.ValidateOnReport c = true) (hc : env.CheckHealth c = none)
      (ho : c.OvalDict.URL ≠ "" → env.CheckHTTPHealth c = none)
      (d : DBClient) (e : String) (hn : env.NewDBClient (dbConf c) = (d, false, some e)) :
      Run env Conf c p (.ExitFailure,
        preamble Conf ++ [.HealthCheck .cve] ++ cveDictInfo c ++ ovalDictInfo c ++
          [.NewDBClient (dbConf c), .Errorf "Failed to init DB Clients: %s" [e]])
  | bindErr (hv : env.ValidateOnReport c = true) (hc : env.CheckHealth c = none)
      (ho : c.OvalDict.URL ≠ "" → env.CheckHTTPHealth c = none)
      (d : DBClient) (hn : env.NewDBClient (dbConf c) = (d, false, none))
      (e : String) (hl : env.ListenAndServe p.listen = some e) :
      Run env Conf c p (.ExitFailure,
        preamble Conf ++ [.HealthCheck .cve] ++ cveDictInfo c ++ ovalDictInfo c ++
          [.NewDBClient (dbConf c), .Handle "/vuls" (.VulsHandler d),
           .HandleFunc "/health" .healthFunc, .Infof "Listening on %s" [p.listen],
           .ListenAndServe p.listen,
           .Errorf "Failed to start server: %s" [e], .CloseDB d])
  | served (hv : env.ValidateOnReport c = true) (hc : env.CheckHealth c = none)
      (ho : c.OvalDict.URL ≠ "" → env.CheckHTTPHealth c = none)
      (d : DBClient) (hn : env.NewDBClient (dbConf c) = (d, false, none))
      (hl : env.ListenAndServe p.listen = none) :
      Run env Conf c p (.ExitSuccess,
        preamble Conf ++ [.HealthCheck .cve] ++ cveDictInfo c ++ ovalDictInfo c ++
          [.NewDBClient (dbConf c), .Handle "/vuls" (.VulsHandler d),
           .HandleFunc "/health" .healthFunc, .Infof "Listening on %s" [p.listen],
           .ListenAndServe p.listen, .CloseDB d])

/-! ## Example runs -/

/-- The process-wide configuration before any flag is applied. -/
def confEmpty : Config :=
  { LogDir := "/var/log/vuls", Debug := false, DebugSQL := false,
    CveDict := ⟨"", "", ""⟩, OvalDict := ⟨"", "", ""⟩, Gost := ⟨"", "", ""⟩ }

/-- A command line using an embedded CVE database and no optional backend. -/
def cmdSqlite : ServerCmd :=
  { configPath := "/vuls/config.toml", listen := "localhost:5515",
    cvelDict := ⟨"sqlite3", "/vuls/cve.sqlite3", ""⟩,
    ovalDict := ⟨"", "", ""⟩, gostConf := ⟨"", "", ""⟩ }

/-- A command line naming remote CVE and OVAL dictionaries. -/
def cmdHttp : ServerCmd :=
  { configPath := "/vuls/config.toml", listen := "localhost:5515",
    cvelDict := ⟨"sqlite3", "", "http://127.0.0.1:1323"⟩,
    ovalDict := ⟨"", "", "http://127.0.0.1:1324"⟩, gostConf := ⟨"", "", ""⟩ }

/-- A command line giving database paths only, the CVE one with a non-embedded
type and the OVAL one with no type. -/
def cmdPathOnly : ServerCmd :=
  { configPath := "/vuls/config.toml", listen := "localhost:5515",
    cvelDict := ⟨"mysql", "/vuls/cve.sqlite3", ""⟩,
    ovalDict := ⟨"", "/vuls/oval.sqlite3", ""⟩, gostConf := ⟨"", "", ""⟩ }

/-- Collaborators that all succeed; the command-line values replace the
configured ones, and the listener eventually stops without an error. -/
def envUp : Env :=
  { OverwriteCve := fun _ o => o
    OverwriteOval := fun _ o => o
    OverwriteGost := fun _ o => o
    ValidateOnReport := fun _ => true
    CheckHealth := fun _ => none
    CheckHTTPHealth := fun _ => none
    NewDBClient := fun _ => (⟨1⟩, false, none)
    ListenAndServe := fun _ => none }

/-- The configuration is rejected. -/
def envInvalid : Env :=
  { envUp with ValidateOnReport := fun _ => false }

/-- The CVE dictionary server is down. -/
def envCveDown : Env :=
  { envUp with CheckHealth := fun _ => some "connection refused" }

/-- The OVAL dictionary server is down. -/
def envOvalDown : Env :=
  { envUp with CheckHTTPHealth := fun _ => some "connection refused" }

/-- Another process holds the embedded database. -/
def envLocked : Env :=
  { envUp with NewDBClient := fun _ => (⟨0⟩, true, some "database is locked") }

/-- The embedded database cannot be opened. -/
def envOpenErr : Env :=
  { envUp with NewDBClient := fun _ => (⟨0⟩, false, some "unable to open database file") }

/-- The listen address is taken. -/
def envBindFail : Env :=
  { envUp with ListenAndServe := fun _ => some "bind: address already in use" }

/-! ## Shape of a run -/

/-- From client construction on, `serve` follows one of the last four ways of `Run`. -/
theorem serve_run (env : Env) (Conf c : Config) (p : ServerCmd) (t : List Event)
    (ht : t = preamble Conf ++ [.HealthCheck .cve] ++ cveDictInfo c ++ ovalDictInfo c)
    (hv : env.ValidateOnReport c = true) (hc : env.CheckHealth c = none)
    (ho : c.OvalDict.URL ≠ "" → env.CheckHTTPHealth c = none) :
    Run env Conf c p (after t (serve env c p)) := by
  subst ht
  rcases hn : env.NewDBClient (dbConf c) with ⟨d, l, err⟩
  cases l
  · cases err with
    | some e =>
      simpa [serve, after, hn] using (Run.openErr hv hc ho d e hn : Run env Conf c p _)
    | none =>
      cases hl : env.ListenAndServe p.listen with
      | some e => simpa [serve, after, hn, hl] using (Run.bindErr hv hc ho d hn e hl : Run env Conf c p _)
      | none => simpa [serve, after, hn, hl] using (Run.served hv hc ho d hn hl : Run env Conf c p _)
  · simpa [serve, after, hn] using (Run.locked hv hc ho d err hn : Run env Conf c p _)

/-- Every run of `Execute` goes one of the seven ways of `Run`. -/
theorem Execute_run (env : Env) (Conf : Config) (p : ServerCmd) :
    Run env Conf (overwritten env Conf p) p (Execute env Conf p) := by
  unfold Execute
  generalize overwritten env Conf p = c
  cases hv : env.ValidateOnReport c
  · simpa [hv] using (Run.invalid hv : Run env Conf c p _)
  cases hc : env.CheckHealth c with
  | some e => simpa [hv, hc] using (Run.cveDown hv e hc : Run env Conf c p _)
  | none =>
    by_cases hu : c.OvalDict.URL = ""
    · have ho : c.OvalDict.URL ≠ "" → env.CheckHTTPHealth c = none := fun h => absurd hu h
      have h := serve_run env Conf c p _ rfl hv hc ho
      by_cases h3 : c.OvalDict.dbType = "sqlite3"
      · simpa [hv, hc, ovalThenServe, ovalDictInfo, hu, h3, after] using h
      · simpa [hv, hc, ovalThenServe, ovalDictInfo, hu, h3, after] using h
    · cases ho : env.CheckHTTPHealth c with
      | some e =>
        simpa [hv, hc, ovalThenServe, hu, ho, after] using
          (Run.ovalDown hv hc hu e ho : Run env Conf c p _)
      | none =>
        have h := serve_run env Conf c p _ rfl hv hc (fun _ => ho)
        simpa [hv, hc, ovalThenServe, ovalDictInfo, hu, ho, after] using h

/-! ## Startup gating -/

/-- A filter that drops info-level log calls drops the whole CVE location report. -/
theorem filter_cveDictInfo (c : Config) (f : Event → Bool)
    (hf : ∀ fmt a, f (.Infof fmt a) = false) : (cveDictInfo c).filter f = [] := by
  unfold cveDictInfo
  split_ifs <;> simp [hf]

/-- A filter that drops info-level log calls and the OVAL probe drops the OVAL events. -/
theorem filter_ovalDictInfo (c : Config) (f : Event → Bool)
    (hf : ∀ fmt a, f (.Infof fmt a) = false) (ho : f (.HealthCheck .oval) = false) :
    (ovalDictInfo c).filter f = [] := by
  unfold ovalDictInfo
  split_ifs <;> simp [hf, ho]

/-- A partial map undefined on info-level log calls yields nothing on the CVE location report. -/
theorem filterMap_cveDictInfo {β : Type} (c : Config) (f : Event → Option β)
    (hf : ∀ fmt a, f (.Infof fmt a) = none) : (cveDictInfo c).filterMap f = [] := by
  unfold cveDictInfo
  split_ifs <;> simp [hf]

/-- A partial map undefined on info-level log calls and on the OVAL probe yields nothing on the OVAL events. -/
theorem filterMap_ovalDictInfo {β : Type} (c : Config) (f : Event → Option β)
    (hf : ∀ fmt a, f (.Infof fmt a) = none) (ho : f (.HealthCheck .oval) = none) :
    (ovalDictInfo c).filterMap f = [] := by
  unfold ovalDictInfo
  split_ifs <;> simp [hf, ho]

/-- The steps that lead to an unlocked, error-free client make up `StartupOK`. -/
theorem startupOK_of_handle {env : Env} {c : Config} {d : DBClient}
    (hv : env.ValidateOnReport c = true) (hc : env.CheckHealth c = none)
    (ho : c.OvalDict.URL ≠ "" → env.CheckHTTPHealth c = none)
    (hn : env.NewDBClient (dbConf c) = (d, false, none)) : StartupOK env c :=
  ⟨hv, hc, ho, by rw [hn], by rw [hn]⟩

/-- C1: the routes are registered and `ListenAndServe` is called only if every
startup step succeeded (validation, CVE probe, OVAL probe when made, client
construction unlocked and without error); when a step fails `Execute` returns a
non-success status and its trace holds no route registration and no
`ListenAndServe`; when all succeed, both routes are registered and the listen
address is bound. -/
theorem Execute_serves_iff_startup_ok (env : Env) (Conf : Config) (p : ServerCmd) :
    ((∃ e ∈ (Execute env Conf p).2, e.isRoute = true ∨ e.isListen = true) →
        StartupOK env (overwritten env Conf p)) ∧
    (¬ StartupOK env (overwritten env Conf p) →
        (Execute env Conf p).1 ≠ .ExitSuccess ∧
        ∀ e ∈ (Execute env Conf p).2, e.isRoute = false ∧ e.isListen = false) ∧
    (StartupOK env (overwritten env Conf p) →
        Event.Handle "/vuls"
            (.VulsHandler (env.NewDBClient (dbConf (overwritten env Conf p))).1) ∈
          (Execute env Conf p).2 ∧
        Event.HandleFunc "/health" .healthFunc ∈ (Execute env Conf p).2 ∧
        Event.ListenAndServe p.listen ∈ (Execute env Conf p).2) := by
  have h := Execute_run env Conf p
  generalize overwritten env Conf p = c at h ⊢
  generalize Execute env Conf p = r at h ⊢
  have quiet : ¬ StartupOK env c →
      r.1 ≠ .ExitSuccess ∧ r.2.filter (fun e => e.isRoute || e.isListen) = [] := by
    intro hno
    cases h with
    | bindErr hv hc ho d hn e hl => exact absurd (startupOK_of_handle hv hc ho hn) hno
    | served hv hc ho d hn hl => exact absurd (startupOK_of_handle hv hc ho hn) hno
    | _ =>
      simp [List.filter_append, filter_cveDictInfo, filter_ovalDictInfo, preamble,
        Event.isRoute, Event.isListen]
  have quiet2 : ¬ StartupOK env c →
      r.1 ≠ .ExitSuccess ∧ ∀ e ∈ r.2, e.isRoute = false ∧ e.isListen = false := by
    intro hno
    refine ⟨(quiet hno).1, fun e he => ?_⟩
    have := (List.filter_eq_nil_iff.1 (quiet hno).2) e he
    simpa using this
  refine ⟨?_, quiet2, ?_⟩
  · rintro ⟨e, he, hr⟩
    by_contra hno
    have := (quiet2 hno).2 e he
    rcases hr with hr | hr <;> simp [this] at hr
  · rintro ⟨hv, hc, ho, hl, he⟩
    cases h with
    | bindErr _ _ _ d hn => simp [hn]
    | served _ _ _ d hn => simp [hn]
    | invalid hv2 => simp [hv] at hv2
    | cveDown _ e hc2 => simp [hc] at hc2
    | ovalDown _ _ hu e ho2 => simp [ho hu] at ho2
    | locked _ _ _ d err hn => simp [hn] at hl
    | openErr _ _ _ d e hn => simp [hn] at he

/-- The statement of C1 on a run where every collaborator succeeds. -/
theorem Execute_serves_iff_startup_ok_witness :
    StartupOK envUp (overwritten envUp confEmpty cmdSqlite) ∧
      Event.ListenAndServe "localhost:5515" ∈ (Execute envUp confEmpty cmdSqlite).2 :=
  have h : StartupOK envUp (overwritten envUp confEmpty cmdSqlite) := by
    unfold StartupOK; decide
  ⟨h, ((Execute_serves_iff_startup_ok envUp confEmpty cmdSqlite).2.2 h).2.2⟩

/-! ## Exit statuses -/

/-- C2, as the code has it: a rejected configuration yields `ExitUsageError`
(2); a backend that is unreachable, locked or cannot be opened yields
`ExitFailure` (1); a failing `ListenAndServe` yields `ExitFailure` (1) as well.
All are non-zero, and the first differs from the other two. -/
theorem Execute_exit_status_classes (env : Env) (Conf : Config) (p : ServerCmd) :
    (env.ValidateOnReport (overwritten env Conf p) = false →
        (Execute env Conf p).1 = .ExitUsageError) ∧
    (env.ValidateOnReport (overwritten env Conf p) = true →
        ¬ StartupOK env (overwritten env Conf p) →
        (Execute env Conf p).1 = .ExitFailure) ∧
    (StartupOK env (overwritten env Conf p) →
        ∀ e, env.ListenAndServe p.listen = some e →
        (Execute env Conf p).1 = .ExitFailure) ∧
    ExitStatus.ExitUsageError.code = 2 ∧ ExitStatus.ExitFailure.code = 1 := by
  have h := Execute_run env Conf p
  generalize overwritten env Conf p = c at h ⊢
  generalize Execute env Conf p = r at h ⊢
  refine ⟨?_, ?_, ?_, rfl, rfl⟩
  · intro hv
    cases h <;> simp_all
  · intro hv hno
    cases h with
    | bindErr hv hc ho d hn e hl => rfl
    | served hv hc ho d hn hl => exact absurd (startupOK_of_handle hv hc ho hn) hno
    | invalid hv2 => simp [hv] at hv2
    | _ => rfl
  · rintro ⟨hv, hc, ho, hl, he⟩ e hls
    cases h with
    | served _ _ _ d hn hl2 => simp [hls] at hl2
    | invalid hv2 => simp [hv] at hv2
    | _ => rfl

/-- The statement of C2 on a rejected configuration, a locked database and a taken address. -/
theorem Execute_exit_status_classes_witness :
    (Execute envInvalid confEmpty cmdSqlite).1 = .ExitUsageError ∧
      (Execute envLocked confEmpty cmdSqlite).1 = .ExitFailure ∧
      (Execute envBindFail confEmpty cmdSqlite).1 = .ExitFailure :=
  ⟨(Execute_exit_status_classes envInvalid confEmpty cmdSqlite).1 (by decide),
   (Execute_exit_status_classes envLocked confEmpty cmdSqlite).2.1 (by decide)
     (by unfold StartupOK; decide),
   (Execute_exit_status_classes envBindFail confEmpty cmdSqlite).2.2.1
     (by unfold StartupOK; decide) "bind: address already in use" (by decide)⟩

/-- C2 as stated fails: a run whose CVE backend is unreachable and a run whose
listener cannot bind end with the same exit status. -/
theorem backend_failure_and_bind_failure_share_status :
    envCveDown.CheckHealth (overwritten envCveDown confEmpty cmdHttp) =
        some "connection refused" ∧
      StartupOK envBindFail (overwritten envBindFail confEmpty cmdSqlite) ∧
      envBindFail.ListenAndServe cmdSqlite.listen = some "bind: address already in use" ∧
      (Execute envCveDown confEmpty cmdHttp).1.code =
        (Execute envBindFail confEmpty cmdSqlite).1.code := by
  unfold StartupOK
  decide

/-! ## Client construction failures -/

/-- C3: in a run that reaches client construction, a locked result logs the
lock diagnostic and not the open-failure one, an unlocked result with an error
logs the open-failure diagnostic and not the lock one, and both end with
`ExitFailure`. -/
theorem Execute_locked_and_open_error_apart (env : Env) (Conf : Config) (p : ServerCmd)
    (hv : env.ValidateOnReport (overwritten env Conf p) = true)
    (hc : env.CheckHealth (overwritten env Conf p) = none)
    (ho : (overwritten env Conf p).OvalDict.URL ≠ "" →
      env.CheckHTTPHealth (overwritten env Conf p) = none) :
    ((env.NewDBClient (dbConf (overwritten env Conf p))).2.1 = true →
        (Execute env Conf p).1 = .ExitFailure ∧
        "SQLite3 is locked. Close other DB connections and try again: %s" ∈
          errorFormats (Execute env Conf p).2 ∧
        "Failed to init DB Clients: %s" ∉ errorFormats (Execute env Conf p).2) ∧
    ((env.NewDBClient (dbConf (overwritten env Conf p))).2.1 = false →
      (env.NewDBClient (dbConf (overwritten env Conf p))).2.2 ≠ none →
        (Execute env Conf p).1 = .ExitFailure ∧
        "Failed to init DB Clients: %s" ∈ errorFormats (Execute env Conf p).2 ∧
        "SQLite3 is locked. Close other DB connections and try again: %s" ∉
          errorFormats (Execute env Conf p).2) := by
  have h := Execute_run env Conf p
  generalize overwritten env Conf p = c at h hv hc ho ⊢
  generalize Execute env Conf p = r at h ⊢
  cases h with
  | invalid hv2 => simp [hv] at hv2
  | cveDown _ e hc2 => simp [hc] at hc2
  | ovalDown _ _ hu e ho2 => simp [ho hu] at ho2
  | _ =>
    simp [*, errorFormats, List.filterMap_append, filterMap_cveDictInfo,
      filterMap_ovalDictInfo, preamble, Event.errorFormat]

/-- The statement of C3 on a locked database and on one that cannot be opened. -/
theorem Execute_locked_and_open_error_apart_witness :
    (envLocked.NewDBClient (dbConf (overwritten envLocked confEmpty cmdSqlite))).2.1 = true ∧
      ((Execute envLocked confEmpty cmdSqlite).1 = .ExitFailure ∧
        "SQLite3 is locked. Close other DB connections and try again: %s" ∈
          errorFormats (Execute envLocked confEmpty cmdSqlite).2 ∧
        "Failed to init DB Clients: %s" ∉
          errorFormats (Execute envLocked confEmpty cmdSqlite).2) ∧
      ((Execute envOpenErr confEmpty cmdSqlite).1 = .ExitFailure ∧
        "Failed to init DB Clients: %s" ∈
          errorFormats (Execute envOpenErr confEmpty cmdSqlite).2 ∧
        "SQLite3 is locked. Close other DB connections and try again: %s" ∉
          errorFormats (Execute envOpenErr confEmpty cmdSqlite).2) :=
  ⟨by decide,
   (Execute_locked_and_open_error_apart envLocked confEmpty cmdSqlite
      (by decide) (by decide) (by decide)).1 (by decide),
   (Execute_locked_and_open_error_apart envOpenErr confEmpty cmdSqlite
      (by decide) (by decide) (by decide)).2 (by decide) (by decide)⟩

/-! ## The CVE probe comes first -/

/-- C4: in a run that passes validation the CVE health check is the first
backend check; if it returns an error, `Execute` returns `ExitFailure` having
made no other backend check (no OVAL probe, no `NewDBClient`), registered no
route and bound no listener, the rest of the trace being the two error-level
log calls. -/
theorem Execute_cve_check_first (env : Env) (Conf : Config) (p : ServerCmd)
    (hv : env.ValidateOnReport (overwritten env Conf p) = true) :
    ((Execute env Conf p).2.filter Event.isBackendCheck).head? = some (.HealthCheck .cve) ∧
    (∀ err, env.CheckHealth (overwritten env Conf p) = some err →
        (Execute env Conf p).1 = .ExitFailure ∧
        (Execute env Conf p).2.filter
            (fun e => e.isBackendCheck || e.isListen || e.isRoute) = [.HealthCheck .cve] ∧
        (Execute env Conf p).2 = preamble Conf ++ [.HealthCheck .cve,
          .Errorf "CVE HTTP server is not running. err: %s" [err],
          .Errorf "Run go-cve-dictionary as server mode before Servering or run with -cvedb-path option" []]) := by
  have h := Execute_run env Conf p
  generalize overwritten env Conf p = c at h hv ⊢
  generalize Execute env Conf p = r at h ⊢
  cases h with
  | invalid hv2 => simp [hv] at hv2
  | cveDown _ e hc =>
    simp [hc, List.filter_append, preamble, Event.isBackendCheck, Event.isListen, Event.isRoute]
  | _ =>
    simp [*, List.filter_append, preamble, Event.isBackendCheck]

/-- The statement of C4 on a run whose CVE dictionary server is down. -/
theorem Execute_cve_check_first_witness :
    envCveDown.ValidateOnReport (overwritten envCveDown confEmpty cmdHttp) = true ∧
      ((Execute envCveDown confEmpty cmdHttp).2.filter Event.isBackendCheck).head? =
        some (.HealthCheck .cve) :=
  ⟨by decide, (Execute_cve_check_first envCveDown confEmpty cmdHttp (by decide)).1⟩

/-! ## Which backends are probed -/

/-- The CVE location report contains no health check. -/
theorem count_healthCheck_cveDictInfo (c : Config) (b : Backend) :
    (cveDictInfo c).count (.HealthCheck b) = 0 := by
  unfold cveDictInfo
  split_ifs <;> simp

/-- The OVAL events contain one OVAL health check when the URL is set, and no other. -/
theorem count_healthCheck_ovalDictInfo (c : Config) (b : Backend) :
    (ovalDictInfo c).count (.HealthCheck b) =
      if b = .oval ∧ c.OvalDict.URL ≠ "" then 1 else 0 := by
  unfold ovalDictInfo
  cases b <;> split_ifs <;> simp_all

/-- C5 as stated fails: with an embedded CVE database and an empty CVE URL the
CVE health check is still invoked. -/
theorem cve_health_check_with_empty_url :
    (overwritten envUp confEmpty cmdSqlite).CveDict.URL = "" ∧
      Event.HealthCheck .cve ∈ (Execute envUp confEmpty cmdSqlite).2 := by
  decide

/-- C5, as the code has it: the OVAL health check is invoked only if the OVAL
URL is non-empty (so never when type, path and URL are all empty), while the
CVE health check is invoked exactly in the runs that pass validation, whatever
the CVE URL, path and type are. -/
theorem Execute_health_check_guards (env : Env) (Conf : Config) (p : ServerCmd) :
    (Event.HealthCheck .oval ∈ (Execute env Conf p).2 →
        (overwritten env Conf p).OvalDict.URL ≠ "") ∧
    (Event.HealthCheck .cve ∈ (Execute env Conf p).2 ↔
        env.ValidateOnReport (overwritten env Conf p) = true) := by
  have h := Execute_run env Conf p
  generalize overwritten env Conf p = c at h ⊢
  generalize Execute env Conf p = r at h ⊢
  have hcount : 0 < r.2.count (.HealthCheck .oval) → c.OvalDict.URL ≠ "" := by
    cases h <;>
      simp_all [List.count_append, count_healthCheck_cveDictInfo,
        count_healthCheck_ovalDictInfo, preamble] <;>
      (intro h0 hu; simp [hu] at h0)
  refine ⟨fun hm => hcount (List.count_pos_iff.2 hm), ?_⟩
  cases h <;> simp_all [preamble]

/-- The statement of C5 on a run with a remote OVAL dictionary. -/
theorem Execute_health_check_guards_witness :
    Event.HealthCheck .oval ∈ (Execute envUp confEmpty cmdHttp).2 ∧
      (overwritten envUp confEmpty cmdHttp).OvalDict.URL ≠ "" :=
  ⟨by decide, (Execute_health_check_guards envUp confEmpty cmdHttp).1 (by decide)⟩

/-- C10: a run that passes validation invokes the CVE health check exactly
once, whatever the CVE configuration; if that check succeeds the OVAL health
check is invoked exactly once when the OVAL URL is non-empty and not at all
when it is empty; no run invokes a health check for the Gost backend. -/
theorem Execute_health_check_counts (env : Env) (Conf : Config) (p : ServerCmd) :
    (env.ValidateOnReport (overwritten env Conf p) = true →
        (Execute env Conf p).2.count (.HealthCheck .cve) = 1) ∧
    (env.ValidateOnReport (overwritten env Conf p) = true →
      env.CheckHealth (overwritten env Conf p) = none →
        (Execute env Conf p).2.count (.HealthCheck .oval) =
          if (overwritten env Conf p).OvalDict.URL ≠ "" then 1 else 0) ∧
    (Execute env Conf p).2.count (.HealthCheck .gost) = 0 := by
  have h := Execute_run env Conf p
  generalize overwritten env Conf p = c at h ⊢
  generalize Execute env Conf p = r at h ⊢
  cases h <;>
    simp_all [List.count_append, count_healthCheck_cveDictInfo,
      count_healthCheck_ovalDictInfo, preamble]

/-- The statement of C10 on runs with and without a remote OVAL dictionary. -/
theorem Execute_health_check_counts_witness :
    (Execute envUp confEmpty cmdHttp).2.count (.HealthCheck .cve) = 1 ∧
      (Execute envUp confEmpty cmdHttp).2.count (.HealthCheck .oval) =
        (if (overwritten envUp confEmpty cmdHttp).OvalDict.URL ≠ "" then 1 else 0) ∧
      (Execute envUp confEmpty cmdSqlite).2.count (.HealthCheck .oval) =
        (if (overwritten envUp confEmpty cmdSqlite).OvalDict.URL ≠ "" then 1 else 0) :=
  ⟨(Execute_health_check_counts envUp confEmpty cmdHttp).1 (by decide),
   (Execute_health_check_counts envUp confEmpty cmdHttp).2.1 (by decide) (by decide),
   (Execute_health_check_counts envUp confEmpty cmdSqlite).2.1 (by decide) (by decide)⟩

/-! ## Release of the client -/

/-- The CVE location report closes nothing. -/
theorem countP_isCloseDB_cveDictInfo (c : Config) :
    (cveDictInfo c).countP Event.isCloseDB = 0 := by
  unfold cveDictInfo
  split_ifs <;> simp [Event.isCloseDB]

/-- The OVAL events close nothing. -/
theorem countP_isCloseDB_ovalDictInfo (c : Config) :
    (ovalDictInfo c).countP Event.isCloseDB = 0 := by
  unfold ovalDictInfo
  split_ifs <;> simp [Event.isCloseDB]

/-- C6: when every startup step succeeds, so that `NewDBClient` hands back a
client, `CloseDB` is called exactly once, on that client, as the last step of
`Execute` and after `ListenAndServe` has returned, whether `ListenAndServe`
returned an error or not; when a startup step fails, `CloseDB` is never
called. -/
theorem Execute_closes_client_once (env : Env) (Conf : Config) (p : ServerCmd) :
    (StartupOK env (overwritten env Conf p) →
        (Execute env Conf p).2.countP Event.isCloseDB = 1 ∧
        ∃ pre mid, (Execute env Conf p).2 =
          pre ++ [.ListenAndServe p.listen] ++ mid ++
            [.CloseDB (env.NewDBClient (dbConf (overwritten env Conf p))).1]) ∧
    (¬ StartupOK env (overwritten env Conf p) →
        (Execute env Conf p).2.countP Event.isCloseDB = 0) := by
  have h := Execute_run env Conf p
  generalize overwritten env Conf p = c at h ⊢
  generalize Execute env Conf p = r at h ⊢
  constructor
  · rintro ⟨hv, hc, ho, hl, he⟩
    cases h with
    | bindErr _ _ _ d hn e hl2 =>
      refine ⟨?_, preamble Conf ++ [.HealthCheck .cve] ++ cveDictInfo c ++ ovalDictInfo c ++
        [.NewDBClient (dbConf c), .Handle "/vuls" (.VulsHandler d),
          .HandleFunc "/health" .healthFunc, .Infof "Listening on %s" [p.listen]],
        [.Errorf "Failed to start server: %s" [e]], ?_⟩
      · simp [List.countP_append, countP_isCloseDB_cveDictInfo,
          countP_isCloseDB_ovalDictInfo, preamble, Event.isCloseDB]
      · simp [hn]
    | served _ _ _ d hn hl2 =>
      refine ⟨?_, preamble Conf ++ [.HealthCheck .cve] ++ cveDictInfo c ++ ovalDictInfo c ++
        [.NewDBClient (dbConf c), .Handle "/vuls" (.VulsHandler d),
          .HandleFunc "/health" .healthFunc, .Infof "Listening on %s" [p.listen]],
        [], ?_⟩
      · simp [List.countP_append, countP_isCloseDB_cveDictInfo,
          countP_isCloseDB_ovalDictInfo, preamble, Event.isCloseDB]
      · simp [hn]
    | invalid hv2 => simp [hv] at hv2
    | cveDown _ e hc2 => simp [hc] at hc2
    | ovalDown _ _ hu e ho2 => simp [ho hu] at ho2
    | locked _ _ _ d err hn => simp [hn] at hl
    | openErr _ _ _ d e hn => simp [hn] at he
  · intro hno
    cases h with
    | bindErr hv hc ho d hn e hl => exact absurd (startupOK_of_handle hv hc ho hn) hno
    | served hv hc ho d hn hl => exact absurd (startupOK_of_handle hv hc ho hn) hno
    | _ =>
      simp [List.countP_append, countP_isCloseDB_cveDictInfo,
        countP_isCloseDB_ovalDictInfo, preamble, Event.isCloseDB]

/-- The statement of C6 on a run whose listener fails to bind and on one whose database is locked. -/
theorem Execute_closes_client_once_witness :
    StartupOK envBindFail (overwritten envBindFail confEmpty cmdSqlite) ∧
      (Execute envBindFail confEmpty cmdSqlite).2.countP Event.isCloseDB = 1 ∧
      ¬ StartupOK envLocked (overwritten envLocked confEmpty cmdSqlite) ∧
      (Execute envLocked confEmpty cmdSqlite).2.countP Event.isCloseDB = 0 :=
  have h1 : StartupOK envBindFail (overwritten envBindFail confEmpty cmdSqlite) := by
    unfold StartupOK; decide
  have h2 : ¬ StartupOK envLocked (overwritten envLocked confEmpty cmdSqlite) := by
    unfold StartupOK; decide
  ⟨h1, ((Execute_closes_client_once envBindFail confEmpty cmdSqlite).1 h1).1,
   h2, (Execute_closes_client_once envLocked confEmpty cmdSqlite).2 h2⟩

/-! ## The liveness route -/

/-- C7: the handler that `Execute` registers under `/health` is the liveness
function; for every request it writes exactly `ok` (status 200 on a fresh
writer), whatever the request and whatever handler body serves `/vuls`, and it
makes no collaborator call: no health check and no use of the client. -/
theorem health_handler_always_ok (env : Env) (Conf : Config) (p : ServerCmd)
    (vuls : DBClient → ResponseWriter → Request → ResponseWriter × List Event)
    (w : ResponseWriter) (r : Request) :
    (∀ pat hd, Event.HandleFunc pat hd ∈ (Execute env Conf p).2 →
        pat = "/health" ∧ hd = .healthFunc) ∧
    (∀ hd, Event.Handle "/health" hd ∉ (Execute env Conf p).2) ∧
    (Handler.ServeHTTP vuls .healthFunc ResponseWriter.fresh r).1 =
        { status := some 200, body := "ok" } ∧
    (Handler.ServeHTTP vuls .healthFunc w r).1.body = w.body ++ "ok" ∧
    (Handler.ServeHTTP vuls .healthFunc w r).2 = [] := by
  refine ⟨?_, ?_, ?_, ?_, rfl⟩
  · intro pat hd hm
    have h := Execute_run env Conf p
    generalize overwritten env Conf p = c at h
    generalize Execute env Conf p = t at h hm
    have hf : Event.HandleFunc pat hd ∈ t.2.filter Event.isRoute :=
      List.mem_filter.2 ⟨hm, rfl⟩
    cases h <;>
      simp [List.filter_append, filter_cveDictInfo, filter_ovalDictInfo, preamble,
        Event.isRoute] at hf <;> exact hf
  · intro hd hm
    have h := Execute_run env Conf p
    generalize overwritten env Conf p = c at h
    generalize Execute env Conf p = t at h hm
    have hf : Event.Handle "/health" hd ∈ t.2.filter Event.isRoute :=
      List.mem_filter.2 ⟨hm, rfl⟩
    cases h <;>
      simp [List.filter_append, filter_cveDictInfo, filter_ovalDictInfo, preamble,
        Event.isRoute] at hf
  · rfl
  · simp [Handler.ServeHTTP, healthFunc, ResponseWriter.Write, Sprintf, sprintfAux]

/-! ## Startup diagnostics -/

/-- Rendering of the CVE failure message. -/
theorem Sprintf_cveDown (e : String) :
    Sprintf "CVE HTTP server is not running. err: %s" [e] =
      "CVE HTTP server is not running. err: " ++ e := by
  apply String.ext
  simp [Sprintf, sprintfAux]

/-- Rendering of the OVAL failure message. -/
theorem Sprintf_ovalDown (e : String) :
    Sprintf "OVAL HTTP server is not running. err: %s" [e] =
      "OVAL HTTP server is not running. err: " ++ e := by
  apply String.ext
  simp [Sprintf, sprintfAux]

/-- Rendering of the lock message. -/
theorem Sprintf_locked (e : String) :
    Sprintf "SQLite3 is locked. Close other DB connections and try again: %s" [e] =
      "SQLite3 is locked. Close other DB connections and try again: " ++ e := by
  apply String.ext
  simp [Sprintf, sprintfAux]

/-- Rendering of the client initialisation failure message. -/
theorem Sprintf_openErr (e : String) :
    Sprintf "Failed to init DB Clients: %s" [e] = "Failed to init DB Clients: " ++ e := by
  apply String.ext
  simp [Sprintf, sprintfAux]

/-- A format without verbs renders as itself (CVE hint). -/
theorem Sprintf_cveHint :
    Sprintf "Run go-cve-dictionary as server mode before Servering or run with -cvedb-path option" [] =
      "Run go-cve-dictionary as server mode before Servering or run with -cvedb-path option" := by
  apply String.ext
  simp [Sprintf, sprintfAux]

/-- A format without verbs renders as itself (OVAL hint). -/
theorem Sprintf_ovalHint :
    Sprintf "Run goval-dictionary as server mode before Servering or run with -ovaldb-path option" [] =
      "Run goval-dictionary as server mode before Servering or run with -ovaldb-path option" := by
  apply String.ext
  simp [Sprintf, sprintfAux]

set_option maxRecDepth 100000

/-- C8 as stated fails: when the remote CVE dictionary is down, no error-level
message of the run names its endpoint. -/
theorem cve_failure_diagnostic_omits_endpoint :
    (overwritten envCveDown confEmpty cmdHttp).CveDict.URL = "http://127.0.0.1:1323" ∧
      envCveDown.CheckHealth (overwritten envCveDown confEmpty cmdHttp) =
        some "connection refused" ∧
      ∀ m ∈ errorMessages (Execute envCveDown confEmpty cmdHttp).2,
        ¬ Mentions m "http://127.0.0.1:1323" := by
  decide

/-- C8, as the code has it: in a run that passes validation, a failed CVE or
OVAL health check is logged at error level as a text naming the backend kind
followed by the error text, plus a fixed hint; a failed client construction is
logged as a text naming the failure class (locked, or failed to initialise)
followed by the rendered error value.  These are all the error-level messages
of the run, so an endpoint or path appears only if the error text carries it. -/
theorem Execute_failure_diagnostics (env : Env) (Conf : Config) (p : ServerCmd)
    (hv : env.ValidateOnReport (overwritten env Conf p) = true) :
    (∀ e, env.CheckHealth (overwritten env Conf p) = some e →
        errorMessages (Execute env Conf p).2 =
          ["CVE HTTP server is not running. err: " ++ e,
           "Run go-cve-dictionary as server mode before Servering or run with -cvedb-path option"]) ∧
    (env.CheckHealth (overwritten env Conf p) = none →
      ((overwritten env Conf p).OvalDict.URL ≠ "" →
        ∀ e, env.CheckHTTPHealth (overwritten env Conf p) = some e →
        errorMessages (Execute env Conf p).2 =
          ["OVAL HTTP server is not running. err: " ++ e,
           "Run goval-dictionary as server mode before Servering or run with -ovaldb-path option"]) ∧
      (((overwritten env Conf p).OvalDict.URL ≠ "" →
          env.CheckHTTPHealth (overwritten env Conf p) = none) →
        ((env.NewDBClient (dbConf (overwritten env Conf p))).2.1 = true →
          errorMessages (Execute env Conf p).2 =
            ["SQLite3 is locked. Close other DB connections and try again: " ++
              errText (env.NewDBClient (dbConf (overwritten env Conf p))).2.2]) ∧
        ((env.NewDBClient (dbConf (overwritten env Conf p))).2.1 = false →
          ∀ e, (env.NewDBClient (dbConf (overwritten env Conf p))).2.2 = some e →
          errorMessages (Execute env Conf p).2 = ["Failed to init DB Clients: " ++ e]))) := by
  have h := Execute_run env Conf p
  generalize overwritten env Conf p = c at h hv ⊢
  generalize Execute env Conf p = r at h ⊢
  cases h with
  | invalid hv2 => simp [hv] at hv2
  | _ =>
    simp_all [errorMessages, List.filterMap_append, filterMap_cveDictInfo,
      filterMap_ovalDictInfo, preamble, Event.errorMessage, Sprintf_cveDown, Sprintf_ovalDown,
      Sprintf_locked, Sprintf_openErr, Sprintf_cveHint, Sprintf_ovalHint]

/-- The statement of C8 on a CVE server that is down, an OVAL server that is down and a locked database. -/
theorem Execute_failure_diagnostics_witness :
    envCveDown.ValidateOnReport (overwritten envCveDown confEmpty cmdHttp) = true ∧
      errorMessages (Execute envCveDown confEmpty cmdHttp).2 =
        ["CVE HTTP server is not running. err: " ++ "connection refused",
         "Run go-cve-dictionary as server mode before Servering or run with -cvedb-path option"] ∧
      errorMessages (Execute envOvalDown confEmpty cmdHttp).2 =
        ["OVAL HTTP server is not running. err: " ++ "connection refused",
         "Run goval-dictionary as server mode before Servering or run with -ovaldb-path option"] ∧
      errorMessages (Execute envLocked confEmpty cmdSqlite).2 =
        ["SQLite3 is locked. Close other DB connections and try again: " ++
          errText (envLocked.NewDBClient
            (dbConf (overwritten envLocked confEmpty cmdSqlite))).2.2] :=
  ⟨by decide,
   (Execute_failure_diagnostics envCveDown confEmpty cmdHttp (by decide)).1
     "connection refused" (by decide),
   ((Execute_failure_diagnostics envOvalDown confEmpty cmdHttp (by decide)).2
     (by decide)).1 (by decide) "connection refused" (by decide),
   (((Execute_failure_diagnostics envLocked confEmpty cmdSqlite (by decide)).2
     (by decide)).2 (by decide)).1 (by decide)⟩

/-! ## Reported dictionary locations -/

/-- C9 as stated fails: with empty URLs and database paths supplied, but a
type other than `sqlite3`, a fully successful run reports no location for the
CVE dictionary and none for the OVAL dictionary. -/
theorem path_without_sqlite3_type_not_reported :
    (overwritten envUp confEmpty cmdPathOnly).CveDict =
        ⟨"mysql", "/vuls/cve.sqlite3", ""⟩ ∧
      (overwritten envUp confEmpty cmdPathOnly).OvalDict =
        ⟨"", "/vuls/oval.sqlite3", ""⟩ ∧
      (Execute envUp confEmpty cmdPathOnly).1 = .ExitSuccess ∧
      infoArgs "cve-dictionary: %s" (Execute envUp confEmpty cmdPathOnly).2 = [] ∧
      infoArgs "oval-dictionary: %s" (Execute envUp confEmpty cmdPathOnly).2 = [] := by
  decide

/-- C9, as the code has it: in a run that passes validation and the CVE health
check, for the CVE and for the OVAL dictionary alike, a non-empty URL is what
is reported, whatever path and type are; with an empty URL the path is reported
when the type is `sqlite3`; with an empty URL and another type nothing is
reported, whether or not a path is supplied. -/
theorem Execute_reports_dictionary_location (env : Env) (Conf : Config) (p : ServerCmd)
    (hv : env.ValidateOnReport (overwritten env Conf p) = true)
    (hc : env.CheckHealth (overwritten env Conf p) = none) :
    infoArgs "cve-dictionary: %s" (Execute env Conf p).2 =
        (if (overwritten env Conf p).CveDict.URL ≠ "" then
          [[(overwritten env Conf p).CveDict.URL]]
        else if (overwritten env Conf p).CveDict.dbType = "sqlite3" then
          [[(overwritten env Conf p).CveDict.SQLite3Path]]
        else []) ∧
    infoArgs "oval-dictionary: %s" (Execute env Conf p).2 =
        (if (overwritten env Conf p).OvalDict.URL ≠ "" then
          [[(overwritten env Conf p).OvalDict.URL]]
        else if (overwritten env Conf p).OvalDict.dbType = "sqlite3" then
          [[(overwritten env Conf p).OvalDict.SQLite3Path]]
        else []) := by
  have h := Execute_run env Conf p
  generalize overwritten env Conf p = c at h hv hc ⊢
  generalize Execute env Conf p = r at h ⊢
  have hcve : infoArgs "cve-dictionary: %s" (cveDictInfo c) =
      (if c.CveDict.URL ≠ "" then [[c.CveDict.URL]]
        else if c.CveDict.dbType = "sqlite3" then [[c.CveDict.SQLite3Path]] else []) := by
    unfold cveDictInfo
    split_ifs <;> simp [infoArgs, Event.infoArgs]
  have hcve2 : infoArgs "oval-dictionary: %s" (cveDictInfo c) = [] := by
    unfold cveDictInfo
    split_ifs <;> simp [infoArgs, Event.infoArgs]
  have hoval : infoArgs "oval-dictionary: %s" (ovalDictInfo c) =
      (if c.OvalDict.URL ≠ "" then [[c.OvalDict.URL]]
        else if c.OvalDict.dbType = "sqlite3" then [[c.OvalDict.SQLite3Path]] else []) := by
    unfold ovalDictInfo
    split_ifs <;> simp [infoArgs, Event.infoArgs]
  have hoval2 : infoArgs "cve-dictionary: %s" (ovalDictInfo c) = [] := by
    unfold ovalDictInfo
    split_ifs <;> simp [infoArgs, Event.infoArgs]
  have happ : ∀ f (a b : List Event), infoArgs f (a ++ b) = infoArgs f a ++ infoArgs f b := by
    intro f a b
    simp [infoArgs, List.filterMap_append]
  have hpre : ∀ f, infoArgs f (preamble Conf) = [] := by
    intro f
    simp [infoArgs, preamble, Event.infoArgs]
  cases h with
  | invalid hv2 => simp [hv] at hv2
  | cveDown _ e hc2 => simp [hc] at hc2
  | ovalDown _ _ hu e ho =>
    simp only [happ, hpre, hcve, hcve2]
    simp [infoArgs, Event.infoArgs, hu]
  | _ =>
    simp only [happ, hpre, hcve, hcve2, hoval, hoval2]
    simp [infoArgs, Event.infoArgs]

/-- The statement of C9 on remote dictionaries and on an embedded CVE database. -/
theorem Execute_reports_dictionary_location_witness :
    infoArgs "cve-dictionary: %s" (Execute envUp confEmpty cmdHttp).2 =
        [["http://127.0.0.1:1323"]] ∧
      infoArgs "oval-dictionary: %s" (Execute envUp confEmpty cmdHttp).2 =
        [["http://127.0.0.1:1324"]] ∧
      infoArgs "cve-dictionary: %s" (Execute envUp confEmpty cmdSqlite).2 =
        [["/vuls/cve.sqlite3"]] :=
  ⟨(Execute_reports_dictionary_location envUp confEmpty cmdHttp (by decide) (by decide)).1,
   (Execute_reports_dictionary_location envUp confEmpty cmdHttp (by decide) (by decide)).2,
   (Execute_reports_dictionary_location envUp confEmpty cmdSqlite (by decide) (by decide)).1⟩

end Vuls
